import Mathlib

/-!
Verification of the arXiv paper fetch / report / delivery pipeline
implemented in `fetch_papers.py`.

The definitions below shallowly embed the Python source:

* Python strings are lists of characters (`Str`).
* `datetime` values are records of calendar fields (`DT`); comparison of two
  UTC datetimes is comparison of the monotone encoding `DT.key` (for
  calendar-valid field values the encoding is a strictly monotone image of
  the lexicographic field order used by Python datetime comparison).
* `datetime.strptime(s, "%Y-%m-%dT%H:%M:%SZ")` is `strptimeArxiv`, which
  mirrors the CPython `_strptime` regex alternatives for each directive
  (variable width fields, case-insensitive literals) and the range checks
  performed by the `datetime` constructor (day of month, leap years,
  minimum year).  A `none` result corresponds to `ValueError`.
* `xml.etree` nodes carry `Option` text (`Element.text` is `None` for an
  element with no text content); `find` results are `Option Element`.
* Code that can raise returns `Except PyErr`: `PyErr.valueError`
  corresponds to `ValueError` from `strptime`/`int`, `PyErr.typeError` to
  `TypeError` (`strptime(None, ...)`, joining a list containing `None`),
  `PyErr.attributeError` to `AttributeError` (`None.strip()`), and
  `PyErr.parseError` to `xml.etree.ElementTree.ParseError`.
* The HTTP response and the XML parse outcome of its body are inputs
  (`HttpResponse`); the SMTP session of `main` is an external collaborator
  abstracted by two parameters (whether sending succeeds and the printed
  error text), while everything `main` does around it (artifact write,
  env reading, `int` conversion of the port, the credential check) is
  embedded directly.
-/

/-- Python strings, as lists of characters. -/
abbrev Str := List Char

/-- Character list of a literal. -/
def sl (s : String) : Str := s.toList

/-- Python exception kinds that the embedded code can raise. -/
inductive PyErr where
  | valueError
  | typeError
  | attributeError
  | parseError
  deriving DecidableEq

deriving instance DecidableEq for Except

/-- Characters stripped by Python `str.strip()` (ASCII whitespace; the
Unicode-only space characters never occur in the inputs considered here). -/
def pyIsSpace (c : Char) : Bool :=
  c = ' ' ∨ c = '\t' ∨ c = '\n' ∨ c = '\r' ∨ c = '\x0b' ∨ c = '\x0c'

/-- Python `s.strip()`: remove leading and trailing whitespace. -/
def pyStrip (l : Str) : Str :=
  ((l.dropWhile pyIsSpace).reverse.dropWhile pyIsSpace).reverse

/-- Python `s.replace("\n", " ")`: every newline becomes one space. -/
def pyReplaceNl (l : Str) : Str :=
  l.map (fun ch => if ch = '\n' then ' ' else ch)

/-- UTC datetime as its calendar fields (year, month, day, hour, minute,
second), the data produced by `strptime` and compared by the filter. -/
structure DT where
  year : Nat
  month : Nat
  day : Nat
  hour : Nat
  minute : Nat
  second : Nat
  deriving DecidableEq

/-- Monotone numeric encoding of a datetime.  For field values in calendar
range (month below 13, day below 32, hour below 24, minute and second below
60) it is a strictly monotone image of the lexicographic order on the
fields, which is how Python compares two UTC datetimes. -/
def DT.key (d : DT) : Nat :=
  ((((d.year * 13 + d.month) * 32 + d.day) * 24 + d.hour) * 60 + d.minute) * 60 + d.second

/-- Numeric value of a digit character. -/
def digitVal (c : Char) : Nat := c.toNat - 48

/-- Leap year rule used by the `datetime` constructor. -/
def isLeap (y : Nat) : Bool :=
  (y % 4 = 0 ∧ y % 100 ≠ 0) ∨ y % 400 = 0

/-- Number of days in a month, as validated by the `datetime` constructor. -/
def daysInMonth (y m : Nat) : Nat :=
  if m = 2 then (if isLeap y then 29 else 28)
  else if m = 4 ∨ m = 6 ∨ m = 9 ∨ m = 11 then 30
  else 31

/-- Directive `%Y` of `_strptime`: exactly four digits. -/
def parseY : Str → Option (Nat × Str)
  | a :: b :: c :: d :: rest =>
    if ('0' ≤ a ∧ a ≤ '9') ∧ ('0' ≤ b ∧ b ≤ '9') ∧ ('0' ≤ c ∧ c ≤ '9') ∧ ('0' ≤ d ∧ d ≤ '9') then
      some (digitVal a * 1000 + digitVal b * 100 + digitVal c * 10 + digitVal d, rest)
    else none
  | _ => none

/-- Directive `%m` of `_strptime`: alternatives `1[0-2]`, `0[1-9]`, `[1-9]`
tried in this order. -/
def parseMonth : Str → Option (Nat × Str)
  | a :: b :: rest =>
    if a = '1' ∧ '0' ≤ b ∧ b ≤ '2' then some (10 + digitVal b, rest)
    else if a = '0' ∧ '1' ≤ b ∧ b ≤ '9' then some (digitVal b, rest)
    else if '1' ≤ a ∧ a ≤ '9' then some (digitVal a, b :: rest)
    else none
  | [a] => if '1' ≤ a ∧ a ≤ '9' then some (digitVal a, []) else none
  | [] => none

/-- Directive `%d` of `_strptime`: alternatives `3[01]`, `[12][0-9]`,
`0[1-9]`, `[1-9]` tried in this order. -/
def parseDay : Str → Option (Nat × Str)
  | a :: b :: rest =>
    if a = '3' ∧ ('0' = b ∨ b = '1') then some (30 + digitVal b, rest)
    else if ('1' = a ∨ a = '2') ∧ '0' ≤ b ∧ b ≤ '9' then some (digitVal a * 10 + digitVal b, rest)
    else if a = '0' ∧ '1' ≤ b ∧ b ≤ '9' then some (digitVal b, rest)
    else if '1' ≤ a ∧ a ≤ '9' then some (digitVal a, b :: rest)
    else none
  | [a] => if '1' ≤ a ∧ a ≤ '9' then some (digitVal a, []) else none
  | [] => none

/-- Directive `%H` of `_strptime`: alternatives `2[0-3]`, `[0-1][0-9]`,
`[0-9]` tried in this order. -/
def parseHour : Str → Option (Nat × Str)
  | a :: b :: rest =>
    if a = '2' ∧ '0' ≤ b ∧ b ≤ '3' then some (20 + digitVal b, rest)
    else if ('0' = a ∨ a = '1') ∧ '0' ≤ b ∧ b ≤ '9' then some (digitVal a * 10 + digitVal b, rest)
    else if '0' ≤ a ∧ a ≤ '9' then some (digitVal a, b :: rest)
    else none
  | [a] => if '0' ≤ a ∧ a ≤ '9' then some (digitVal a, []) else none
  | [] => none

/-- Directives `%M` and `%S` of `_strptime`: `[0-5][0-9]` then `[0-9]`
(the extra `6[0-1]` alternative of `%S` only matches leap seconds that the
`datetime` constructor rejects anyway, so the net accepted set coincides). -/
def parseMS : Str → Option (Nat × Str)
  | a :: b :: rest =>
    if ('0' ≤ a ∧ a ≤ '5') ∧ '0' ≤ b ∧ b ≤ '9' then some (digitVal a * 10 + digitVal b, rest)
    else if '0' ≤ a ∧ a ≤ '9' then some (digitVal a, b :: rest)
    else none
  | [a] => if '0' ≤ a ∧ a ≤ '9' then some (digitVal a, []) else none
  | [] => none

/-- Literal separator characters of the format string. -/
def expectCh (c : Char) : Str → Option Str
  | x :: rest => if x = c then some rest else none
  | [] => none

/-- Literal letters of the format string: `_strptime` compiles the format
with IGNORECASE, so both cases are accepted. -/
def expectLetter (up low : Char) : Str → Option Str
  | x :: rest => if x = up ∨ x = low then some rest else none
  | [] => none

/-- Model of `datetime.strptime(s, "%Y-%m-%dT%H:%M:%SZ")`, returning `none` exactly
when Python raises `ValueError`: either the regex built from the format does
not match the whole string, or the matched fields fail the `datetime`
constructor checks (year at least 1, day within the month). -/
def strptimeArxiv (s : Str) : Option DT := do
  let (y, r1) ← parseY s
  let r2 ← expectCh '-' r1
  let (mo, r3) ← parseMonth r2
  let r4 ← expectCh '-' r3
  let (dy, r5) ← parseDay r4
  let r6 ← expectLetter 'T' 't' r5
  let (h, r7) ← parseHour r6
  let r8 ← expectCh ':' r7
  let (mi, r9) ← parseMS r8
  let r10 ← expectCh ':' r9
  let (se, r11) ← parseMS r10
  let r12 ← expectLetter 'Z' 'z' r11
  if r12 = [] ∧ 1 ≤ y ∧ dy ≤ daysInMonth y mo then
    some ⟨y, mo, dy, h, mi, se⟩
  else none

/-- Zero-padded two-digit rendering, as `strftime` `%m`/`%d` produce. -/
def pad2 (n : Nat) : Str :=
  (if n < 10 then ['0'] else []) ++ sl (toString n)

/-- Zero-padded four-digit rendering, as `strftime` `%Y` produces. -/
def pad4 (n : Nat) : Str :=
  (if n < 10 then sl "000" else if n < 100 then sl "00" else if n < 1000 then sl "0" else [])
    ++ sl (toString n)

/-- Model of `published_date.strftime("%Y-%m-%d")`. -/
def fmtDate (d : DT) : Str :=
  pad4 d.year ++ ['-'] ++ pad2 d.month ++ ['-'] ++ pad2 d.day

/-- An XML element as the code observes it: only its text content matters,
and `xml.etree` reports `None` text for an element without text. -/
structure Element where
  text : Option Str
  deriving DecidableEq

/-- An `atom:author` element: `find("atom:name")` either locates a name
element or returns `None`. -/
structure Author where
  name : Option Element
  deriving DecidableEq

/-- An `atom:entry` element, presented through the five lookups the code
performs on it. -/
structure Entry where
  published : Option Element
  title : Option Element
  summary : Option Element
  id : Option Element
  authors : List Author
  deriving DecidableEq

/-- The dictionary appended to `papers` for one retained entry. -/
structure Paper where
  title : Str
  summary : Str
  link : Option Str
  authors : List (Option Str)
  published : Str
  deriving DecidableEq

/-- Model of `node.text.strip().replace("\n", " ") if node is not None else default`:
an absent element yields the sentinel default, an element whose text is
`None` raises `AttributeError` (`None` has no `strip`), otherwise the text
is trimmed and newlines are replaced. -/
def extractText (node : Option Element) (dflt : Str) : Except PyErr Str :=
  match node with
  | none => .ok dflt
  | some n =>
    match n.text with
    | none => .error .attributeError
    | some t => .ok (pyReplaceNl (pyStrip t))

/-- Model of `link_node.text if link_node is not None else ""`: an absent id element
yields the empty string, a present one yields its (possibly `None`) text. -/
def pyLink (e : Entry) : Option Str :=
  match e.id with
  | none => some []
  | some n => n.text

/-- The author list comprehension: one element per author having a name
element, in feed order, each contributing that name element text (which is
`None` for an empty name element). -/
def extractAuthors (e : Entry) : List (Option Str) :=
  e.authors.filterMap (fun a => a.name.map (fun n => n.text))

/-- The published timestamp of an entry as the loop body obtains it:
`ok none` means the entry is skipped via `continue` (no published element),
an error is the exception `strptime` raises (no text, or unparseable text),
and `ok (some d)` is the parsed datetime. -/
def entryDate (e : Entry) : Except PyErr (Option DT) :=
  match e.published with
  | none => .ok none
  | some node =>
    match node.text with
    | none => .error .typeError
    | some s =>
      match strptimeArxiv s with
      | none => .error .valueError
      | some d => .ok (some d)

/-- Construction of the paper dictionary for an in-window entry (title then
summary extraction can raise; link, authors and the formatted date cannot). -/
def buildPaper (e : Entry) (d : DT) : Except PyErr Paper :=
  match extractText e.title (sl "Sem título") with
  | .error err => .error err
  | .ok t =>
    match extractText e.summary (sl "Sem resumo") with
    | .error err => .error err
    | .ok s => .ok ⟨t, s, pyLink e, extractAuthors e, fmtDate d⟩

/-- One iteration of the entry loop: `ok none` when the entry contributes no
record (skipped, or published before the cutoff), `ok (some p)` when the
record `p` is appended, an error when an exception propagates. -/
def processEntry (cutoff : DT) (e : Entry) : Except PyErr (Option Paper) :=
  match entryDate e with
  | .error err => .error err
  | .ok none => .ok none
  | .ok (some d) =>
    if cutoff.key ≤ d.key then
      match buildPaper e d with
      | .error err => .error err
      | .ok p => .ok (some p)
    else .ok none

/-- The whole entry loop: records of retained entries in feed order; the
first exception aborts everything. -/
def processEntries (cutoff : DT) : List Entry → Except PyErr (List Paper)
  | [] => .ok []
  | e :: es =>
    match processEntry cutoff e with
    | .error err => .error err
    | .ok none => processEntries cutoff es
    | .ok (some p) =>
      match processEntries cutoff es with
      | .error err => .error err
      | .ok ps => .ok (p :: ps)

/-- Outcome of `ET.fromstring` on the response body: either the parsed list
of `atom:entry` elements or a parse failure. -/
inductive XmlDoc where
  | wellFormed (entries : List Entry)
  | malformed
  deriving DecidableEq

/-- The HTTP response handed back by `requests.get`. -/
structure HttpResponse where
  status : Nat
  body : XmlDoc

/-- The diagnostic printed for a non-success HTTP status. -/
def errLine (status : Nat) : Str :=
  sl "Erro ao acessar ArXiv API: " ++ sl (toString status)

/-- Model of `fetch_arxiv_papers` from the network response on: a non-200 status is
reported and yields the empty list; then the body is parsed (`ParseError`
is not caught) and the entry loop runs.  The first component collects the
printed diagnostics. -/
def fetch_arxiv_papers (cutoff : DT) (resp : HttpResponse) : Except PyErr (List Str × List Paper) :=
  if resp.status ≠ 200 then .ok ([errLine resp.status], [])
  else
    match resp.body with
    | .malformed => .error .parseError
    | .wellFormed entries =>
      match processEntries cutoff entries with
      | .error err => .error err
      | .ok ps => .ok ([], ps)

/-- Model of `sep.join(xs)` over the author list: raises `TypeError` if any element
is `None`, otherwise concatenates with the separator between elements. -/
def pyJoinAux (sep : Str) : List Str → Str
  | [] => []
  | [x] => x
  | x :: y :: xs => x ++ sep ++ pyJoinAux sep (y :: xs)

/-- Model of `", ".join(authors)` where the list may contain `None`. -/
def pyJoin (sep : Str) (xs : List (Option Str)) : Except PyErr Str :=
  if xs.all Option.isSome then .ok (pyJoinAux sep (xs.filterMap (fun o => o)))
  else .error .typeError

/-- Rendering of an `Option` string inside an f-string: `None` prints as
the text `None`. -/
def pyStrOpt (o : Option Str) : Str :=
  match o with
  | none => sl "None"
  | some s => s

/-- The four HTML lines of one paper block plus the separator, with the
already-joined author string; mirrors the four f-string concatenations. -/
def blockStr (p : Paper) (a : Str) : Str :=
  sl "<h3><a href=\x27" ++ pyStrOpt p.link ++ sl "\x27>" ++ p.title ++ sl "</a></h3>"
    ++ sl "<p><b>Autores:</b> " ++ a ++ sl "</p>"
    ++ sl "<p><b>Data:</b> " ++ p.published ++ sl "</p>"
    ++ sl "<p><b>Resumo:</b> " ++ p.summary.take 500 ++ sl "...</p>"
    ++ sl "<hr>"

/-- One loop body of `format_email_body`: the author join can raise. -/
def paperBlock (p : Paper) : Except PyErr Str :=
  match pyJoin (sl ", ") p.authors with
  | .error err => .error err
  | .ok a => .ok (blockStr p a)

/-- All paper blocks concatenated in input order. -/
def renderBlocks : List Paper → Except PyErr Str
  | [] => .ok []
  | p :: ps =>
    match paperBlock p with
    | .error err => .error err
    | .ok b =>
      match renderBlocks ps with
      | .error err => .error err
      | .ok rest => .ok (b ++ rest)

/-- Model of `format_email_body(papers)`, with the `%d/%m/%Y` rendering of `now`
threaded in as a parameter. -/
def format_email_body (nowBR : Str) (papers : List Paper) : Except PyErr Str :=
  match papers with
  | [] => .ok (sl "Nenhum artigo novo encontrado nos últimos 7 dias sobre \x273D Print DLP Resin\x27.")
  | _ :: _ =>
    match renderBlocks papers with
    | .error err => .error err
    | .ok blocks =>
      .ok (sl "<h2>Novos Artigos Científicos: 3D Print DLP Resin</h2>"
        ++ sl "<p>Período: Últimos 7 dias (até " ++ nowBR ++ sl ")</p><hr>" ++ blocks)

/-- Decimal digits of a nonempty all-digit string, else `none`. -/
def digitsVal (ds : Str) : Option Nat :=
  match ds with
  | [] => none
  | _ :: _ =>
    if ds.all Char.isDigit then
      some (ds.foldl (fun acc c => acc * 10 + digitVal c) 0)
    else none

/-- Python `int(s)` on the port string: surrounding whitespace is allowed,
then an optional sign and a nonempty digit run; anything else raises
`ValueError`.  (Digit-group underscores, accepted by CPython, are not
modelled; no input considered here contains them.) -/
def pyInt (s : String) : Option Int :=
  match pyStrip s.toList with
  | '-' :: ds => (digitsVal ds).map (fun n => -(n : Int))
  | '+' :: ds => (digitsVal ds).map (fun n => (n : Int))
  | ds => (digitsVal ds).map (fun n => (n : Int))

/-- Model of `os.getenv` over an explicit environment. -/
def envGet (env : List (String × String)) (k : String) : Option String :=
  (env.find? (fun kv => kv.fst == k)).map (fun kv => kv.snd)

/-- Python truthiness test `not x` on an optional string: true for an
absent variable and for the empty string. -/
def pyFalsy (o : Option String) : Bool :=
  match o with
  | none => true
  | some s => s = ""

/-- The delivery-skipped diagnostic of `main`. -/
def skipLine : Str :=
  sl "Credenciais SMTP não configuradas. Pulando envio para marcelo.delguerra@gmail.com."

/-- The success diagnostic of the send branch of `main`. -/
def sentLine : Str :=
  sl "E-mail enviado com sucesso para marcelo.delguerra@gmail.com!"

/-- Observable outcome of one `main` run after the fetch returned: printed
lines, files written, whether an SMTP session was opened, and whether an
uncaught exception escaped. -/
structure MainResult where
  prints : List Str
  files : List (Str × Str)
  smtpAttempted : Bool
  outcome : Except PyErr Unit
  deriving DecidableEq

/-- Model of `main` from the point the fetch returned its list: the count line is
printed, the body is rendered (a raised `TypeError` escapes), the report
file is written, the SMTP settings are read (`int(os.getenv("SMTP_PORT",
"587"))` raises on a non-integer value), missing or empty credentials skip
delivery with a diagnostic, and otherwise the SMTP session runs inside the
catch-all `try` whose outcome is abstracted by `smtpOk`/`smtpErrMsg`. -/
def mainAfterFetch (env : List (String × String)) (nowD nowBR : Str)
    (smtpOk : Bool) (smtpErrMsg : Str) (papers : List Paper) : MainResult :=
  match format_email_body nowBR papers with
  | .error err =>
    ⟨[sl "Encontrados " ++ sl (toString papers.length) ++ sl " artigos."], [], false, .error err⟩
  | .ok content =>
    match pyInt ((envGet env "SMTP_PORT").getD "587") with
    | none =>
      ⟨[sl "Encontrados " ++ sl (toString papers.length) ++ sl " artigos.",
        sl "Relatório gerado em: " ++ (sl "report_" ++ nowD ++ sl ".html")],
       [(sl "report_" ++ nowD ++ sl ".html", content)], false, .error .valueError⟩
    | some _ =>
      if pyFalsy (envGet env "SMTP_USER") || pyFalsy (envGet env "SMTP_PASS") then
        ⟨[sl "Encontrados " ++ sl (toString papers.length) ++ sl " artigos.",
          sl "Relatório gerado em: " ++ (sl "report_" ++ nowD ++ sl ".html"),
          skipLine],
         [(sl "report_" ++ nowD ++ sl ".html", content)], false, .ok ()⟩
      else
        ⟨[sl "Encontrados " ++ sl (toString papers.length) ++ sl " artigos.",
          sl "Relatório gerado em: " ++ (sl "report_" ++ nowD ++ sl ".html"),
          if smtpOk then sentLine else sl "Erro ao enviar e-mail: " ++ smtpErrMsg],
         [(sl "report_" ++ nowD ++ sl ".html", content)], true, .ok ()⟩

/-- Substring occurrence test (used to inspect rendered output). -/
def occurs (pat : Str) : Str → Bool
  | [] => pat.isPrefixOf []
  | c :: rest => pat.isPrefixOf (c :: rest) || occurs pat rest

/-! Concrete inputs used by the counterexamples and witnesses. -/

/-- Cutoff datetime used by the concrete runs (plays the role of
`now(UTC) - 7 days`). -/
def cutW : DT := ⟨2025, 1, 3, 0, 0, 0⟩

/-- The `%d/%m/%Y` rendering of `now` used by the concrete runs. -/
def nowBRw : Str := sl "11/10/2025"

/-- Entry published before the cutoff. -/
def entryOld : Entry := ⟨some ⟨some (sl "2025-01-01T00:00:00Z")⟩, none, none, none, []⟩

/-- Entry published exactly at the cutoff. -/
def entryAt : Entry := ⟨some ⟨some (sl "2025-01-03T00:00:00Z")⟩, none, none, none, []⟩

/-- Entry whose published text does not parse. -/
def entryBadTs : Entry := ⟨some ⟨some (sl "not-a-date")⟩, none, none, none, []⟩

/-- Entry with no published element. -/
def entryNoPub : Entry := ⟨none, none, none, none, []⟩

/-- In-window entry with no title element, a summary, and one author whose
name element is present but empty. -/
def entryNoTitle : Entry :=
  ⟨some ⟨some (sl "2025-01-10T00:00:00Z")⟩, none, some ⟨some (sl "ok")⟩, none, [⟨some ⟨none⟩⟩]⟩

/-- The record fetched from `entryNoTitle`. -/
def paperNoTitle : Paper := ⟨sl "Sem título", sl "ok", some [], [none], sl "2025-01-10"⟩

/-- In-window entry with no title and no summary element and one named author. -/
def entryNoTitleClean : Entry :=
  ⟨some ⟨some (sl "2025-01-10T00:00:00Z")⟩, none, none, none, [⟨some ⟨some (sl "Ada")⟩⟩]⟩

/-- The record fetched from `entryNoTitleClean`. -/
def paperClean : Paper :=
  ⟨sl "Sem título", sl "Sem resumo", some [], [some (sl "Ada")], sl "2025-01-10"⟩

/-- In-window entry whose single author has an empty name element. -/
def entryEmptyName : Entry :=
  ⟨some ⟨some (sl "2025-01-10T00:00:00Z")⟩, some ⟨some (sl "T")⟩, some ⟨some (sl "S")⟩, none,
   [⟨some ⟨none⟩⟩]⟩

/-- The record fetched from `entryEmptyName`: a null author entry. -/
def paperEmptyName : Paper := ⟨sl "T", sl "S", some [], [none], sl "2025-01-10"⟩

/-- In-window entry with one author lacking a name element and one named author. -/
def entryAuthors : Entry :=
  ⟨some ⟨some (sl "2025-01-10T00:00:00Z")⟩, some ⟨some (sl "T")⟩, some ⟨some (sl "S")⟩, none,
   [⟨none⟩, ⟨some ⟨some (sl "Ada")⟩⟩]⟩

/-- The record fetched from `entryAuthors`. -/
def paperAuthors : Paper := ⟨sl "T", sl "S", some [], [some (sl "Ada")], sl "2025-01-10"⟩

/-- In-window entry whose only author lacks a name element. -/
def entryNoAuthors : Entry :=
  ⟨some ⟨some (sl "2025-01-10T00:00:00Z")⟩, some ⟨some (sl "T")⟩, some ⟨some (sl "S")⟩, none,
   [⟨none⟩]⟩

/-- The record fetched from `entryNoAuthors`: empty author list. -/
def paperNoAuthors : Paper := ⟨sl "T", sl "S", some [], [], sl "2025-01-10"⟩

/-- In-window entry whose title contains a run of two newlines. -/
def entryNewlines : Entry :=
  ⟨some ⟨some (sl "2025-01-10T00:00:00Z")⟩, some ⟨some (sl "a\n\nb")⟩, some ⟨some (sl "S")⟩,
   none, []⟩

/-- The record fetched from `entryNewlines`: two spaces survive. -/
def paperNewlines : Paper := ⟨sl "a  b", sl "S", some [], [], sl "2025-01-10"⟩

/-- Record whose title carries HTML markup. -/
def paperInj : Paper := ⟨sl "<script>", sl "S", some [], [], sl "2025-01-10"⟩

/-- The rendered document for `paperInj`. -/
def bodyInj : Str :=
  match format_email_body nowBRw [paperInj] with
  | .ok b => b
  | .error _ => []

/-- The rendered block for `paperInj`. -/
def blockInj : Str :=
  match paperBlock paperInj with
  | .ok b => b
  | .error _ => []

/-- Record with a 501-character summary. -/
def paperLong : Paper :=
  ⟨sl "T", List.replicate 501 'x', some (sl "L"), [some (sl "A")], sl "2025-01-10"⟩

/-- The rendered block for `paperLong`. -/
def blockLong : Str :=
  match paperBlock paperLong with
  | .ok b => b
  | .error _ => []

/-- Environment with a non-integer SMTP port and no credentials. -/
def envPortBad : List (String × String) := [("SMTP_PORT", "abc")]

/-- The run of `main` under `envPortBad` with zero papers. -/
def resPortBad : MainResult := mainAfterFetch envPortBad (sl "20251011") nowBRw true [] []

/-- Environment with no credentials and no port setting. -/
def envNoCred : List (String × String) := [("SMTP_SERVER", "example.org")]

/-- In-window entry whose title element is present but empty. -/
def entryEmptyTitle : Entry :=
  ⟨some ⟨some (sl "2025-01-10T00:00:00Z")⟩, some ⟨none⟩, some ⟨some (sl "S")⟩, none, []⟩

/-- In-window entry whose summary element is present but empty. -/
def entryEmptySummary : Entry :=
  ⟨some ⟨some (sl "2025-01-10T00:00:00Z")⟩, some ⟨some (sl "T")⟩, some ⟨none⟩, none, []⟩

/-- In-window entry omitting both title and summary elements. -/
def entryAbsentBoth : Entry :=
  ⟨some ⟨some (sl "2025-01-10T00:00:00Z")⟩, none, none, none, []⟩

/-- The record fetched from `entryAbsentBoth`. -/
def paperAbsentBoth : Paper := ⟨sl "Sem título", sl "Sem resumo", some [], [], sl "2025-01-10"⟩

example : strptimeArxiv (sl "2025-01-10T00:00:00Z") = some ⟨2025, 1, 10, 0, 0, 0⟩ := by decide

example : strptimeArxiv (sl "not-a-date") = none := by decide

example : strptimeArxiv (sl "2023-02-29T00:00:00Z") = none := by decide

example : strptimeArxiv (sl "2024-02-29T23:59:59Z") = some ⟨2024, 2, 29, 23, 59, 59⟩ := by decide

example : strptimeArxiv (sl "2024-1-5t0:0:0z") = some ⟨2024, 1, 5, 0, 0, 0⟩ := by decide

example : strptimeArxiv (sl "2024-01-05T00:00:00Zx") = none := by decide

example : pyStrip (sl "  a\nb\t ") = sl "a\nb" := by decide

example : pyReplaceNl (sl "a\n\nb") = sl "a  b" := by decide

example : pyInt "587" = some 587 := by decide

example : pyInt "abc" = none := by decide

example : fmtDate ⟨2025, 1, 10, 0, 0, 0⟩ = sl "2025-01-10" := by decide

/-! Helper lemmas. -/

/-- Taking at least the whole length of a list returns the list. -/
theorem take_of_le {α : Type} : ∀ (l : List α) (n : Nat), l.length ≤ n → l.take n = l
  | [], _, _ => by simp
  | _ :: _, 0, h => by simp at h
  | a :: t, n + 1, h => by
    simp only [List.take]
    rw [take_of_le t n (by simpa using h)]

/-- An entry whose parsed timestamp lies strictly before the cutoff is not
materialized. -/
theorem processEntry_below (c : DT) (e : Entry) (d : DT)
    (hd : entryDate e = Except.ok (some d)) (hlt : d.key < c.key) :
    processEntry c e = Except.ok none := by
  simp only [processEntry, hd]
  rw [if_neg (by omega)]

/-- An entry whose parsed timestamp is at or after the cutoff contributes a
record whenever the loop body does not raise. -/
theorem processEntry_inwin (c : DT) (e : Entry) (d : DT) (r : Option Paper)
    (hd : entryDate e = Except.ok (some d)) (hge : c.key ≤ d.key)
    (h : processEntry c e = Except.ok r) :
    ∃ p, r = some p ∧ buildPaper e d = Except.ok p := by
  simp only [processEntry, hd] at h
  rw [if_pos hge] at h
  cases hb : buildPaper e d with
  | error err => simp [hb] at h
  | ok p =>
    simp only [hb] at h
    injection h with h2
    exact ⟨p, h2.symm, rfl⟩

/-- Decomposition of a successfully materialized record. -/
theorem processEntry_ok_some (c : DT) (e : Entry) (p : Paper)
    (h : processEntry c e = Except.ok (some p)) :
    ∃ d, entryDate e = Except.ok (some d) ∧ c.key ≤ d.key ∧ buildPaper e d = Except.ok p := by
  cases hd : entryDate e with
  | error err => simp [processEntry, hd] at h
  | ok o =>
    cases o with
    | none => simp [processEntry, hd] at h
    | some d =>
      simp only [processEntry, hd] at h
      by_cases hge : c.key ≤ d.key
      · rw [if_pos hge] at h
        cases hb : buildPaper e d with
        | error err => simp [hb] at h
        | ok q =>
          simp only [hb] at h
          injection h with h2
          injection h2 with h3
          exact ⟨d, rfl, hge, h3 ▸ hb⟩
      · rw [if_neg hge] at h
        simp at h

/-- Decomposition of a successfully built record. -/
theorem buildPaper_ok (e : Entry) (d : DT) (p : Paper)
    (h : buildPaper e d = Except.ok p) :
    ∃ t s, extractText e.title (sl "Sem título") = Except.ok t ∧
      extractText e.summary (sl "Sem resumo") = Except.ok s ∧
      p = ⟨t, s, pyLink e, extractAuthors e, fmtDate d⟩ := by
  unfold buildPaper at h
  cases ht : extractText e.title (sl "Sem título") with
  | error err => rw [ht] at h; exact absurd h (by simp)
  | ok t =>
    rw [ht] at h
    cases hs : extractText e.summary (sl "Sem resumo") with
    | error err => rw [hs] at h; exact absurd h (by simp)
    | ok s =>
      rw [hs] at h
      injection h with h2
      exact ⟨t, s, rfl, rfl, h2.symm⟩

/-- Case analysis of one successful loop step over a nonempty entry list. -/
theorem processEntries_cons (c : DT) (e : Entry) (es : List Entry) (ps : List Paper)
    (h : processEntries c (e :: es) = Except.ok ps) :
    (processEntry c e = Except.ok none ∧ processEntries c es = Except.ok ps) ∨
    (∃ p ps2, processEntry c e = Except.ok (some p) ∧
      processEntries c es = Except.ok ps2 ∧ ps = p :: ps2) := by
  simp only [processEntries] at h
  cases h1 : processEntry c e with
  | error err => rw [h1] at h; exact absurd h (by simp)
  | ok o =>
    cases o with
    | none => rw [h1] at h; exact Or.inl ⟨rfl, h⟩
    | some p =>
      rw [h1] at h
      cases h2 : processEntries c es with
      | error err => rw [h2] at h; exact absurd h (by simp)
      | ok ps2 =>
        rw [h2] at h
        injection h with h3
        exact Or.inr ⟨p, ps2, rfl, rfl, h3.symm⟩

/-- Every record of a successful run derives from some entry of the feed. -/
theorem processEntries_source (c : DT) :
    ∀ es ps, processEntries c es = Except.ok ps →
      ∀ p ∈ ps, ∃ e ∈ es, processEntry c e = Except.ok (some p) := by
  intro es
  induction es with
  | nil =>
    intro ps h p hp
    simp only [processEntries] at h
    injection h with h2
    rw [← h2] at hp
    simp at hp
  | cons e0 es ih =>
    intro ps h p hp
    rcases processEntries_cons c e0 es ps h with ⟨h1, h2⟩ | ⟨p0, ps2, h1, h2, h3⟩
    · obtain ⟨e2, he2, hr⟩ := ih ps h2 p hp
      exact ⟨e2, List.mem_cons_of_mem _ he2, hr⟩
    · rw [h3] at hp
      rcases List.mem_cons.mp hp with rfl | hp2
      · exact ⟨e0, List.mem_cons_self _ _, h1⟩
      · obtain ⟨e2, he2, hr⟩ := ih ps2 h2 p hp2
        exact ⟨e2, List.mem_cons_of_mem _ he2, hr⟩

/-- In a successful run every entry of the feed was processed without an
exception, and its contributed record, if any, is in the result list. -/
theorem processEntries_mem_ok (c : DT) :
    ∀ es ps, processEntries c es = Except.ok ps →
      ∀ e ∈ es, ∃ r, processEntry c e = Except.ok r ∧ ∀ p, r = some p → p ∈ ps := by
  intro es
  induction es with
  | nil =>
    intro ps _ e he
    simp at he
  | cons e0 es ih =>
    intro ps h e he
    rcases processEntries_cons c e0 es ps h with ⟨h1, h2⟩ | ⟨p0, ps2, h1, h2, h3⟩
    · rcases List.mem_cons.mp he with rfl | he2
      · exact ⟨none, h1, fun p hp => by simp at hp⟩
      · exact ih ps h2 e he2
    · rcases List.mem_cons.mp he with rfl | he2
      · exact ⟨some p0, h1, fun p hp => by rw [h3]; injection hp with h4; rw [h4]; exact List.mem_cons_self _ _⟩
      · obtain ⟨r, hr, hmem⟩ := ih ps2 h2 e he2
        exact ⟨r, hr, fun p hp => by rw [h3]; exact List.mem_cons_of_mem _ (hmem p hp)⟩

/-- A 200 response with a well-formed body defers to the entry loop. -/
theorem fetch_ok_200 (c : DT) (es : List Entry) (pr : List Str) (ps : List Paper)
    (h : fetch_arxiv_papers c ⟨200, XmlDoc.wellFormed es⟩ = Except.ok (pr, ps)) :
    processEntries c es = Except.ok ps := by
  have he : fetch_arxiv_papers c ⟨200, XmlDoc.wellFormed es⟩ =
      (match processEntries c es with
       | Except.error err => Except.error err
       | Except.ok ps2 => Except.ok (([] : List Str), ps2)) := rfl
  rw [he] at h
  cases hp : processEntries c es with
  | error err => simp [hp] at h
  | ok ps2 =>
    simp only [hp] at h
    injection h with h2
    injection h2 with h3 h4
    rw [← h4]

/-- A successful author join, explicitly. -/
theorem pyJoin_ok (xs : List (Option Str)) (h : xs.all Option.isSome = true) :
    pyJoin (sl ", ") xs = Except.ok (pyJoinAux (sl ", ") (xs.filterMap (fun o => o))) := by
  unfold pyJoin
  rw [if_pos h]

/-- The newline replacement leaves no newline behind. -/
theorem pyReplaceNl_no_nl (l : Str) : ∀ ch ∈ pyReplaceNl l, ch ≠ '\n' := by
  intro ch hch
  unfold pyReplaceNl at hch
  obtain ⟨a, _, ha⟩ := List.mem_map.mp hch
  by_cases h : a = '\n'
  · rw [if_pos h] at ha
    rw [← ha]
    decide
  · rw [if_neg h] at ha
    rw [← ha]
    exact h

/-- A run of `k` newlines becomes a run of `k` spaces, one for one. -/
theorem pyReplaceNl_run (u v : Str) (k : Nat) :
    pyReplaceNl (u ++ List.replicate k '\n' ++ v) =
      pyReplaceNl u ++ List.replicate k ' ' ++ pyReplaceNl v := by
  unfold pyReplaceNl
  rw [List.map_append, List.map_append, List.map_replicate]
  simp

/-! Claims. -/

/-- Claim C1: every feed entry whose published timestamp is strictly before
the cutoff contributes no record (and every record of a successful fetch
derives from some entry, so no record derives from such an entry), while an
entry whose timestamp equals the cutoff exactly is retained: its loop step
yields a record whenever it does not raise, and in a successful fetch its
record is in the returned list.  The comparison is `published >= cutoff`,
inclusive at the boundary. -/
theorem c1_cutoff_filter (c : DT) (e : Entry) (d : DT)
    (hd : entryDate e = Except.ok (some d)) :
    (d.key < c.key → processEntry c e = Except.ok none) ∧
    (d.key = c.key → ∀ r, processEntry c e = Except.ok r → ∃ p, r = some p) ∧
    (∀ es pr ps, fetch_arxiv_papers c ⟨200, XmlDoc.wellFormed es⟩ = Except.ok (pr, ps) →
      (∀ p ∈ ps, ∃ e2 ∈ es, processEntry c e2 = Except.ok (some p)) ∧
      (e ∈ es → c.key ≤ d.key → ∃ p ∈ ps, processEntry c e = Except.ok (some p))) := by
  refine ⟨fun hlt => processEntry_below c e d hd hlt, fun heq r hr => ?_, fun es pr ps h => ?_⟩
  · obtain ⟨p, hp, _⟩ := processEntry_inwin c e d r hd (by omega) hr
    exact ⟨p, hp⟩
  · have hps := fetch_ok_200 c es pr ps h
    refine ⟨processEntries_source c es ps hps, fun he hge => ?_⟩
    obtain ⟨r, hr, hmem⟩ := processEntries_mem_ok c es ps hps e he
    obtain ⟨p, hp, _⟩ := processEntry_inwin c e d r hd hge hr
    exact ⟨p, hmem p hp, hp ▸ hr⟩

/-- Witness for C1: a concrete entry two days before the cutoff is dropped,
and a concrete entry exactly at the cutoff is materialized. -/
theorem c1_witness :
    processEntry cutW entryOld = Except.ok none ∧
    ∃ p, (some (⟨sl "Sem título", sl "Sem resumo", some [], [], sl "2025-01-03"⟩ : Paper)) = some p :=
  ⟨(c1_cutoff_filter cutW entryOld ⟨2025, 1, 1, 0, 0, 0⟩ (by decide)).1 (by decide),
   (c1_cutoff_filter cutW entryAt ⟨2025, 1, 3, 0, 0, 0⟩ (by decide)).2.1 (by decide) _ (by decide)⟩

/-- Counterexample to C2: a 200 response whose single entry carries the
unparseable published text `not-a-date` makes fetch raise `ValueError`
instead of skipping the entry and returning a list. -/
theorem c2_counterexample :
    fetch_arxiv_papers cutW ⟨200, XmlDoc.wellFormed [entryBadTs]⟩ =
      Except.error PyErr.valueError := by
  decide

/-- Claim C2 (amended): an entry with no published element is skipped
silently and processing continues with the remaining entries; but an entry
whose published element is present with unparseable text makes the loop
raise `ValueError` (`TypeError` when the element has no text), and any such
exception aborts the whole fetch. -/
theorem c2_amended (c : DT) (e : Entry) :
    (e.published = none →
      processEntry c e = Except.ok none ∧
      ∀ es, processEntries c (e :: es) = processEntries c es) ∧
    (∀ node s2, e.published = some node → node.text = some s2 → strptimeArxiv s2 = none →
      processEntry c e = Except.error PyErr.valueError) ∧
    (∀ node, e.published = some node → node.text = none →
      processEntry c e = Except.error PyErr.typeError) ∧
    (∀ err es, processEntry c e = Except.error err →
      fetch_arxiv_papers c ⟨200, XmlDoc.wellFormed (e :: es)⟩ = Except.error err) := by
  refine ⟨fun hp => ⟨?_, fun es => ?_⟩, fun node s2 hp ht hs => ?_, fun node hp ht => ?_,
    fun err es hpe => ?_⟩
  · simp [processEntry, entryDate, hp]
  · have h1 : processEntry c e = Except.ok none := by simp [processEntry, entryDate, hp]
    simp only [processEntries, h1]
  · simp [processEntry, entryDate, hp, ht, hs]
  · simp [processEntry, entryDate, hp, ht]
  · have he : fetch_arxiv_papers c ⟨200, XmlDoc.wellFormed (e :: es)⟩ =
        (match processEntries c (e :: es) with
         | Except.error err2 => Except.error err2
         | Except.ok ps2 => Except.ok (([] : List Str), ps2)) := rfl
    rw [he]
    simp only [processEntries, hpe]

/-- Witness for C2 (amended) at concrete entries: one with no published
element (skipped), one with unparseable text (ValueError aborting the run). -/
theorem c2_witness :
    processEntry cutW entryNoPub = Except.ok none ∧
    processEntry cutW entryBadTs = Except.error PyErr.valueError ∧
    fetch_arxiv_papers cutW ⟨200, XmlDoc.wellFormed (entryBadTs :: [entryNoPub])⟩ =
      Except.error PyErr.valueError :=
  ⟨((c2_amended cutW entryNoPub).1 rfl).1,
   (c2_amended cutW entryBadTs).2.1 ⟨some (sl "not-a-date")⟩ (sl "not-a-date") rfl rfl (by decide),
   (c2_amended cutW entryBadTs).2.2.2 PyErr.valueError [entryNoPub]
     ((c2_amended cutW entryBadTs).2.1 ⟨some (sl "not-a-date")⟩ (sl "not-a-date") rfl rfl
       (by decide))⟩

/-- Counterexample to C3: a 200 response with a malformed body makes fetch
raise `ParseError` instead of returning an empty list. -/
theorem c3_counterexample :
    fetch_arxiv_papers cutW ⟨200, XmlDoc.malformed⟩ = Except.error PyErr.parseError := by
  decide

/-- Claim C3 (amended): a malformed response body makes fetch raise an
uncaught `ParseError` (the document-level parse failure is not recovered);
only a non-success HTTP status is treated as zero papers with a printed
diagnostic. -/
theorem c3_amended (c : DT) (b : XmlDoc) (s : Nat) :
    fetch_arxiv_papers c ⟨200, XmlDoc.malformed⟩ = Except.error PyErr.parseError ∧
    (s ≠ 200 → fetch_arxiv_papers c ⟨s, b⟩ = Except.ok ([errLine s], [])) := by
  constructor
  · rfl
  · intro hs
    unfold fetch_arxiv_papers
    rw [if_pos hs]

/-- Witness for C3 (amended): a concrete 500 status yields the diagnostic
and the empty list. -/
theorem c3_witness :
    fetch_arxiv_papers cutW ⟨500, XmlDoc.wellFormed [entryAt]⟩ =
      Except.ok ([errLine 500], []) :=
  (c3_amended cutW (XmlDoc.wellFormed [entryAt]) 500).2 (by decide)

/-- Claim C4: in every rendered paper block the summary line consists of a
content portion followed by the ellipsis marker; the content portion has
length exactly 500 when the summary is longer than 500 characters and is
the full summary when it is 500 characters or shorter. -/
theorem c4_truncation (p : Paper) (b : Str) (h : paperBlock p = Except.ok b) :
    ∃ pre content,
      b = pre ++ sl "<p><b>Resumo:</b> " ++ content ++ sl "...</p>" ++ sl "<hr>" ∧
      (500 < p.summary.length → content.length = 500) ∧
      (p.summary.length ≤ 500 → content = p.summary) := by
  unfold paperBlock at h
  cases hj : pyJoin (sl ", ") p.authors with
  | error err => simp [hj] at h
  | ok a =>
    simp only [hj] at h
    injection h with h2
    refine ⟨sl "<h3><a href=\x27" ++ pyStrOpt p.link ++ sl "\x27>" ++ p.title ++ sl "</a></h3>"
        ++ sl "<p><b>Autores:</b> " ++ a ++ sl "</p>"
        ++ sl "<p><b>Data:</b> " ++ p.published ++ sl "</p>", p.summary.take 500, ?_, ?_, ?_⟩
    · rw [← h2]
      unfold blockStr
      simp [List.append_assoc]
    · intro h5
      rw [List.length_take]
      omega
    · intro h5
      exact take_of_le p.summary 500 h5

/-- Witness for C4 at a concrete record with a 501-character summary. -/
theorem c4_witness :
    ∃ pre content,
      blockLong = pre ++ sl "<p><b>Resumo:</b> " ++ content ++ sl "...</p>" ++ sl "<hr>" ∧
      (500 < paperLong.summary.length → content.length = 500) ∧
      (paperLong.summary.length ≤ 500 → content = paperLong.summary) :=
  c4_truncation paperLong blockLong (by rfl)

/-- Counterexample to C5: an in-window entry with no title element whose
single author has an empty name element yields a record carrying the
sentinel title, yet rendering that record raises `TypeError`. -/
theorem c5_counterexample :
    processEntries cutW [entryNoTitle] = Except.ok [paperNoTitle] ∧
    format_email_body nowBRw [paperNoTitle] = Except.error PyErr.typeError := by
  constructor
  · decide
  · decide

/-- Claim C5 (amended): for every in-window entry materialized into a
record, an omitted title (resp. summary) element yields the sentinel
placeholder, never empty; and rendering the record succeeds provided every
author entry of the record carries actual text (an empty author name
element yields a null entry whose rendering raises `TypeError`). -/
theorem c5_amended (c : DT) (e : Entry) (p : Paper)
    (h : processEntry c e = Except.ok (some p)) :
    (e.title = none → p.title = sl "Sem título" ∧ p.title ≠ []) ∧
    (e.summary = none → p.summary = sl "Sem resumo" ∧ p.summary ≠ []) ∧
    (p.authors.all Option.isSome = true → ∃ b, paperBlock p = Except.ok b) := by
  obtain ⟨d, hd, hge, hb⟩ := processEntry_ok_some c e p h
  obtain ⟨t, s, ht, hs, hp⟩ := buildPaper_ok e d p hb
  subst hp
  refine ⟨fun h0 => ?_, fun h0 => ?_, fun h0 => ?_⟩
  · rw [h0] at ht
    unfold extractText at ht
    injection ht with h2
    refine ⟨h2.symm, ?_⟩
    rw [← h2]
    exact (by decide : sl "Sem título" ≠ [])
  · rw [h0] at hs
    unfold extractText at hs
    injection hs with h2
    refine ⟨h2.symm, ?_⟩
    rw [← h2]
    exact (by decide : sl "Sem resumo" ≠ [])
  · exact ⟨blockStr ⟨t, s, pyLink e, extractAuthors e, fmtDate d⟩
        (pyJoinAux (sl ", ") ((extractAuthors e).filterMap (fun o => o))),
      by unfold paperBlock; rw [pyJoin_ok _ h0]⟩

/-- Witness for C5 (amended) at a concrete entry omitting title and summary
whose author is named: both sentinels appear and the block renders. -/
theorem c5_witness :
    paperClean.title = sl "Sem título" ∧ paperClean.summary = sl "Sem resumo" ∧
    ∃ b, paperBlock paperClean = Except.ok b :=
  ⟨((c5_amended cutW entryNoTitleClean paperClean (by decide)).1 rfl).1,
   ((c5_amended cutW entryNoTitleClean paperClean (by decide)).2.1 rfl).1,
   (c5_amended cutW entryNoTitleClean paperClean (by decide)).2.2 (by decide)⟩

/-- Counterexample to C6: an in-window entry whose single author has an
empty name element yields a record whose author sequence is the non-empty
null-carrying list, and rendering that record raises `TypeError` instead of
producing an authors string. -/
theorem c6_counterexample :
    processEntries cutW [entryEmptyName] = Except.ok [paperEmptyName] ∧
    paperEmptyName.authors = [none] ∧
    format_email_body nowBRw [paperEmptyName] = Except.error PyErr.typeError := by
  refine ⟨by decide, rfl, by decide⟩

/-- Claim C6 (amended): every materialized record carries one author entry
per author element having a name element, in feed order, omitting entirely
the authors lacking a name element; the entry for a name element with no
text is null (rendering such a record raises `TypeError` rather than
skipping the author).  A record with an empty author sequence renders with
an empty authors string, without error. -/
theorem c6_amended (c : DT) (e : Entry) (p : Paper)
    (h : processEntry c e = Except.ok (some p)) :
    p.authors = e.authors.filterMap (fun a => a.name.map (fun n => n.text)) ∧
    (p.authors = [] →
      ∃ pre post, paperBlock p = Except.ok (pre ++ sl "<p><b>Autores:</b> " ++ sl "</p>" ++ post)) := by
  obtain ⟨d, hd, hge, hb⟩ := processEntry_ok_some c e p h
  obtain ⟨t, s, ht, hs, hp⟩ := buildPaper_ok e d p hb
  subst hp
  refine ⟨rfl, fun h0 => ?_⟩
  refine ⟨sl "<h3><a href=\x27" ++ pyStrOpt (pyLink e) ++ sl "\x27>" ++ t ++ sl "</a></h3>",
    sl "<p><b>Data:</b> " ++ fmtDate d ++ sl "</p>"
      ++ sl "<p><b>Resumo:</b> " ++ s.take 500 ++ sl "...</p>" ++ sl "<hr>", ?_⟩
  unfold paperBlock
  have h1 : extractAuthors e = [] := h0
  rw [h1, show pyJoin (sl ", ") ([] : List (Option Str)) = Except.ok [] from rfl]
  unfold blockStr
  simp [List.append_assoc]

/-- Witness for C6 (amended) at concrete entries: one author lacking a name
element is omitted while the named one is kept in order, and a record with
no extractable author renders with an empty authors segment. -/
theorem c6_witness :
    paperAuthors.authors =
      entryAuthors.authors.filterMap (fun a => a.name.map (fun n => n.text)) ∧
    ∃ pre post, paperBlock paperNoAuthors =
      Except.ok (pre ++ sl "<p><b>Autores:</b> " ++ sl "</p>" ++ post) :=
  ⟨(c6_amended cutW entryAuthors paperAuthors (by decide)).1,
   (c6_amended cutW entryNoAuthors paperNoAuthors (by decide)).2 rfl⟩

/-- Counterexample to C7: an in-window entry whose title text is `a`, two
newlines, `b` yields the four-character title `a`, two spaces, `b` — the
run of two newlines becomes two spaces, not the single space the claim
requires (which would give a three-character title). -/
theorem c7_counterexample :
    processEntries cutW [entryNewlines] = Except.ok [paperNewlines] ∧
    paperNewlines.title = sl "a  b" ∧ paperNewlines.title.length = 4 := by
  refine ⟨by decide, rfl, rfl⟩

/-- Claim C7 (amended): for every in-window entry with present title and
summary text, the record fields are the source text trimmed of surrounding
whitespace with each embedded newline replaced by one space; the result
contains no newline, but a run of `k` consecutive newlines yields `k`
spaces — runs are not collapsed to a single space. -/
theorem c7_amended (c : DT) (e : Entry) (p : Paper) (tn sn : Element) (t s : Str)
    (h : processEntry c e = Except.ok (some p))
    (ht : e.title = some tn) (htt : tn.text = some t)
    (hs : e.summary = some sn) (hst : sn.text = some s) :
    p.title = pyReplaceNl (pyStrip t) ∧ p.summary = pyReplaceNl (pyStrip s) ∧
    (∀ ch ∈ p.title, ch ≠ '\n') ∧ (∀ ch ∈ p.summary, ch ≠ '\n') ∧
    (∀ u v : Str, ∀ k : Nat,
      pyReplaceNl (u ++ List.replicate k '\n' ++ v) =
        pyReplaceNl u ++ List.replicate k ' ' ++ pyReplaceNl v) := by
  obtain ⟨d, hd, hge, hb⟩ := processEntry_ok_some c e p h
  obtain ⟨t2, s2, ht2, hs2, hp⟩ := buildPaper_ok e d p hb
  subst hp
  simp only [extractText, ht, htt] at ht2
  simp only [extractText, hs, hst] at hs2
  injection ht2 with ht3
  injection hs2 with hs3
  refine ⟨ht3.symm, hs3.symm, ?_, ?_, pyReplaceNl_run⟩
  · have := pyReplaceNl_no_nl (pyStrip t)
    rw [ht3] at this
    exact this
  · have := pyReplaceNl_no_nl (pyStrip s)
    rw [hs3] at this
    exact this

/-- Witness for C7 (amended) at the concrete entry with a two-newline run. -/
theorem c7_witness :
    paperNewlines.title = pyReplaceNl (pyStrip (sl "a\n\nb")) ∧
    ∀ ch ∈ paperNewlines.title, ch ≠ '\n' :=
  ⟨(c7_amended cutW entryNewlines paperNewlines ⟨some (sl "a\n\nb")⟩ ⟨some (sl "S")⟩
      (sl "a\n\nb") (sl "S") (by decide) rfl rfl rfl rfl).1,
   (c7_amended cutW entryNewlines paperNewlines ⟨some (sl "a\n\nb")⟩ ⟨some (sl "S")⟩
      (sl "a\n\nb") (sl "S") (by decide) rfl rfl rfl rfl).2.2.1⟩

/-- Counterexample to C8: a record whose title is `<script>` renders to a
document in which the raw markup occurs and its HTML-escaped form does not
— the renderer performs no escaping. -/
theorem c8_counterexample :
    format_email_body nowBRw [paperInj] = Except.ok bodyInj ∧
    occurs (sl "<script>") bodyInj = true ∧
    occurs (sl "&lt;script&gt;") bodyInj = false := by
  refine ⟨rfl, by decide, by decide⟩

/-- Claim C8 (amended): the renderer embeds upstream-derived text verbatim
— every rendered block contains the record title and the truncated summary
as contiguous substrings, with no HTML escaping applied; the escaping
conformance requirement of the specification is not met by the reference
behavior. -/
theorem c8_amended (p : Paper) (b : Str) (h : paperBlock p = Except.ok b) :
    (∃ u1 v1, b = u1 ++ p.title ++ v1) ∧
    (∃ u2 v2, b = u2 ++ p.summary.take 500 ++ v2) := by
  unfold paperBlock at h
  cases hj : pyJoin (sl ", ") p.authors with
  | error err => simp [hj] at h
  | ok a =>
    simp only [hj] at h
    injection h with h2
    constructor
    · refine ⟨sl "<h3><a href=\x27" ++ pyStrOpt p.link ++ sl "\x27>",
        sl "</a></h3>" ++ (sl "<p><b>Autores:</b> " ++ a ++ sl "</p>")
          ++ (sl "<p><b>Data:</b> " ++ p.published ++ sl "</p>")
          ++ (sl "<p><b>Resumo:</b> " ++ p.summary.take 500 ++ sl "...</p>") ++ sl "<hr>", ?_⟩
      rw [← h2]
      unfold blockStr
      simp [List.append_assoc]
    · refine ⟨sl "<h3><a href=\x27" ++ pyStrOpt p.link ++ sl "\x27>" ++ p.title ++ sl "</a></h3>"
          ++ (sl "<p><b>Autores:</b> " ++ a ++ sl "</p>")
          ++ (sl "<p><b>Data:</b> " ++ p.published ++ sl "</p>") ++ sl "<p><b>Resumo:</b> ",
        sl "...</p>" ++ sl "<hr>", ?_⟩
      rw [← h2]
      unfold blockStr
      simp [List.append_assoc]

/-- Witness for C8 (amended) at the concrete markup-carrying record. -/
theorem c8_witness :
    (∃ u1 v1, blockInj = u1 ++ paperInj.title ++ v1) ∧
    (∃ u2 v2, blockInj = u2 ++ paperInj.summary.take 500 ++ v2) :=
  c8_amended paperInj blockInj (by rfl)

/-- Counterexample to C9: with the port variable set to a non-integer and
the username absent, the run writes no skip diagnostic, opens no SMTP
session, and raises an uncaught `ValueError` from `int(...)` — the
credential-absent run is not error-free. -/
theorem c9_counterexample :
    envGet envPortBad "SMTP_USER" = none ∧
    resPortBad.outcome = Except.error PyErr.valueError ∧
    resPortBad.smtpAttempted = false ∧
    resPortBad.prints.contains skipLine = false := by
  refine ⟨rfl, rfl, rfl, by decide⟩

/-- Claim C9 (amended): whenever the username or the secret is absent (or
empty) and the configured port value parses as an integer and the report
body renders, the run prints the count and artifact lines followed by the
delivery-skipped diagnostic, writes exactly the dated artifact with the
rendered content, opens no SMTP session, and raises nothing. -/
theorem c9_amended (env : List (String × String)) (nowD nowBR : Str) (ok : Bool) (em : Str)
    (papers : List Paper) (content : Str) (port : Int)
    (hfmt : format_email_body nowBR papers = Except.ok content)
    (hport : pyInt ((envGet env "SMTP_PORT").getD "587") = some port)
    (hcred : pyFalsy (envGet env "SMTP_USER") = true ∨ pyFalsy (envGet env "SMTP_PASS") = true) :
    mainAfterFetch env nowD nowBR ok em papers =
      ⟨[sl "Encontrados " ++ sl (toString papers.length) ++ sl " artigos.",
        sl "Relatório gerado em: " ++ (sl "report_" ++ nowD ++ sl ".html"),
        skipLine],
       [(sl "report_" ++ nowD ++ sl ".html", content)], false, Except.ok ()⟩ := by
  simp only [mainAfterFetch, hfmt, hport]
  rw [if_pos ?_]
  rcases hcred with h | h
  · rw [h]
    rfl
  · rw [h]
    simp

/-- Witness for C9 (amended): the concrete credential-less environment with
zero papers writes the artifact containing the placeholder document, prints
the skip diagnostic, and attempts no delivery. -/
theorem c9_witness :
    mainAfterFetch envNoCred (sl "20251011") nowBRw true [] [] =
      ⟨[sl "Encontrados " ++ sl (toString ([] : List Paper).length) ++ sl " artigos.",
        sl "Relatório gerado em: " ++ (sl "report_" ++ sl "20251011" ++ sl ".html"),
        skipLine],
       [(sl "report_" ++ sl "20251011" ++ sl ".html",
         sl "Nenhum artigo novo encontrado nos últimos 7 dias sobre \x273D Print DLP Resin\x27.")],
       false, Except.ok ()⟩ :=
  c9_amended envNoCred (sl "20251011") nowBRw true [] []
    (sl "Nenhum artigo novo encontrado nos últimos 7 dias sobre \x273D Print DLP Resin\x27.")
    587 (by decide) (by decide) (Or.inl rfl)

/-- Claim C10: an in-window entry whose title (resp. summary) element is
present but carries no text makes fetch raise `AttributeError` instead of
substituting the sentinel, while the same entry with the element absent
altogether receives both sentinels — the substitution is keyed on element
absence only. -/
theorem c10_empty_text_raises :
    fetch_arxiv_papers cutW ⟨200, XmlDoc.wellFormed [entryEmptyTitle]⟩ =
      Except.error PyErr.attributeError ∧
    fetch_arxiv_papers cutW ⟨200, XmlDoc.wellFormed [entryEmptySummary]⟩ =
      Except.error PyErr.attributeError ∧
    fetch_arxiv_papers cutW ⟨200, XmlDoc.wellFormed [entryAbsentBoth]⟩ =
      Except.ok ([], [paperAbsentBoth]) := by
  refine ⟨by decide, by decide, by decide⟩
